import Mathlib

/-!
Shallow embedding of the authentication flow of the repository
(`src/routes/auth.py`, plus the migration `migrations/versions/9591ecaee4f4_.py`).
The route handlers are translated directly from `src/routes/auth.py`.
The repository layer (`src.repository.users`), the token/password service
(`src.services.auth`), the message constants (`src.conf.messages`) and the
pydantic user schemas are imported by the routes but are not part of the
given sources; those are modelled from the specification and are marked
`Modelled from the spec:` in their doc comments.
-/

/-- Modelled from the spec: message constant from `src.conf.messages` (module not in the sources). -/
def ALREADY_EXISTS : String := "Account already exists"

/-- Modelled from the spec: message constant from `src.conf.messages` (module not in the sources). -/
def EMAIL_ALREADY_CONFIRMED : String := "Your email is already confirmed"

/-- Modelled from the spec: message constant from `src.conf.messages` (module not in the sources). -/
def EMAIL_CONFIRMED : String := "Email confirmed"

/-- Modelled from the spec: message constant from `src.conf.messages` (module not in the sources). -/
def EMAIL_NOT_CONFIRMED : String := "Email not confirmed"

/-- Modelled from the spec: message constant from `src.conf.messages` (module not in the sources). -/
def INVALID_EMAIL : String := "Invalid email"

/-- Modelled from the spec: message constant from `src.conf.messages` (module not in the sources). -/
def INVALID_PASSWORD : String := "Invalid password"

/-- Modelled from the spec: message constant from `src.conf.messages` (module not in the sources). -/
def INVALID_TOKEN : String := "Invalid refresh token"

/-- Modelled from the spec: message constant from `src.conf.messages` (module not in the sources). -/
def SUCCESS_CREATE_USER : String := "User successfully created"

/-- Modelled from the spec: message constant from `src.conf.messages` (module not in the sources). -/
def VERIFICATION_ERROR : String := "Verification error"

/-- The three token kinds of the spec: access (short TTL), refresh (long TTL),
email-confirmation. -/
inductive TokenKind where
  | access
  | refresh
  | emailConf
deriving DecidableEq, Repr

/-- Modelled from the spec: a token is a signed payload carrying
subject (email), scope tag and expiry (`src.services.auth` is not in the
sources).  Signature validity is implicit: a `SignedToken` value stands for a
token whose signature verifies. -/
structure SignedToken where
  sub : String
  kind : TokenKind
  exp : Nat
deriving DecidableEq, Repr

/-- A persisted user record, per the spec data model: email (unique key),
username, password hash (field named `password` as in the source routes,
which read `user.password`), confirmed flag, nullable last-issued refresh
token. -/
structure User where
  email : String
  username : String
  password : String
  confirmed : Bool
  refresh_token : Option SignedToken
deriving DecidableEq, Repr

/-- The credential store: the `users` table, keyed by unique email. -/
abbrev Db : Type := List User

/-- Modelled from the spec: the pydantic `UserModel` request body
(`src.schemas` is not in the sources): username, email, password. -/
structure UserModel where
  username : String
  email : String
  password : String
deriving DecidableEq, Repr

/-- The OAuth2 password form used by login: `username` carries the email. -/
structure OAuth2PasswordRequestForm where
  username : String
  password : String
deriving DecidableEq, Repr

/-- The token pair response model: access token, refresh token, token type. -/
structure TokenModel where
  access_token : SignedToken
  refresh_token : SignedToken
  token_type : String
deriving DecidableEq, Repr

/-- A scheduled background `send_email` task: the arguments the route passes
to `background_tasks.add_task`. -/
structure EmailTask where
  email : String
  username : String
  base_url : String
deriving DecidableEq, Repr

/-- The outcome of a route call: a successful payload, an HTTP error raised
as `HTTPException`, or an unhandled runtime error of the host language
(e.g. an `AttributeError` from dereferencing `None`). -/
inductive Outcome (α : Type) where
  | ok (a : α)
  | httpError (statusCode : Nat) (detail : String)
  | pythonError (msg : String)
deriving DecidableEq, Repr

def HTTP_201_CREATED : Nat := 201
def HTTP_400_BAD_REQUEST : Nat := 400
def HTTP_401_UNAUTHORIZED : Nat := 401
def HTTP_409_CONFLICT : Nat := 409

namespace repository_users

/-- Modelled from the spec: `getByEmail` of the Credential Store
(`src.repository.users.get_user_by_email` is not in the sources): simple
keyed-record access on the unique email key. -/
def get_user_by_email (email : String) (db : Db) : Option User :=
  List.find? (fun u => u.email == email) db

/-- Modelled from the spec: `create` of the Credential Store
(`src.repository.users.create_user` is not in the sources): inserts a new
`User` with `confirmed = false` and no refresh token, and returns it. -/
def create_user (body : UserModel) (db : Db) : User × Db :=
  let new_user : User :=
    { email := body.email, username := body.username, password := body.password,
      confirmed := false, refresh_token := none }
  (new_user, db ++ [new_user])

/-- Modelled from the spec: `updateRefreshToken` of the Credential Store
(`src.repository.users.update_token` is not in the sources): overwrites the
stored refresh token of the given user record, identified by its email key. -/
def update_token (user : User) (token : Option SignedToken) (db : Db) : Db :=
  db.map (fun u => if u.email == user.email then { u with refresh_token := token } else u)

/-- Modelled from the spec: `markConfirmed` of the Credential Store
(`src.repository.users.confirmed_email` is not in the sources): sets the
confirmed flag of the user with the given email to true. -/
def confirmed_email (email : String) (db : Db) : Db :=
  db.map (fun u => if u.email == email then { u with confirmed := true } else u)

end repository_users

namespace auth_service

/-- Modelled from the spec: one-way salted password hashing of the Token
Service (`src.services.auth.get_password_hash` is not in the sources).  The
tag prefixed to the plaintext stands for the bcrypt salt+digest; the model
keeps the one-way property that the hash never equals the plaintext. -/
def get_password_hash (plain : String) : String := "$2b$" ++ plain

/-- Modelled from the spec: `verifyPassword(plain, hash) -> bool`
(`src.services.auth.verify_password` is not in the sources). -/
def verify_password (plain hashed : String) : Bool :=
  hashed == get_password_hash plain

/-- Modelled from the spec: default TTL of an access token when the caller
gives no `expires_delta` (short TTL; exact value not in the sources). -/
def ACCESS_DEFAULT_TTL : Nat := 900

/-- Modelled from the spec: TTL of a refresh token (long TTL; exact value
not in the sources). -/
def REFRESH_TTL : Nat := 7 * 24 * 3600

/-- Modelled from the spec: `issueAccessToken(subject, ttl)`
(`src.services.auth.create_access_token` is not in the sources): a signed
token embedding subject, access kind and expiry. -/
def create_access_token (sub : String) (now : Nat) (expires_delta : Nat) : SignedToken :=
  { sub := sub, kind := TokenKind.access, exp := now + expires_delta }

/-- Modelled from the spec: `issueRefreshToken(subject, ttl)`
(`src.services.auth.create_refresh_token` is not in the sources). -/
def create_refresh_token (sub : String) (now : Nat) : SignedToken :=
  { sub := sub, kind := TokenKind.refresh, exp := now + REFRESH_TTL }

/-- Modelled from the spec: `decode(token, expectedKind) -> subject` for the
refresh kind (`src.services.auth.decode_refresh_token` is not in the
sources): fails with Unauthorized on a kind mismatch, otherwise returns the
subject email. -/
def decode_refresh_token (t : SignedToken) : Except (Nat × String) String :=
  if t.kind = TokenKind.refresh then Except.ok t.sub
  else Except.error (HTTP_401_UNAUTHORIZED, INVALID_TOKEN)

/-- Modelled from the spec: decoding of the email-confirmation token
(`src.services.auth.get_email_from_token` is not in the sources): fails with
BadRequest on a kind mismatch, otherwise returns the subject email. -/
def get_email_from_token (t : SignedToken) : Except (Nat × String) String :=
  if t.kind = TokenKind.emailConf then Except.ok t.sub
  else Except.error (HTTP_400_BAD_REQUEST, VERIFICATION_ERROR)

end auth_service

/-- Status code declared on the signup route decorator:
`status_code=status.HTTP_201_CREATED`. -/
def signup_status_code : Nat := HTTP_201_CREATED

/-- The signup route (`src/routes/auth.py`): Conflict if the email is
already registered; otherwise hash the password, create the user, schedule
a `send_email` background task and return the created user with a detail
message.  The second component is the list of background tasks the call
scheduled. -/
def signup (body : UserModel) (base_url : String) (db : Db) :
    Outcome (User × String) × List EmailTask × Db :=
  match repository_users.get_user_by_email body.email db with
  | some _ => (Outcome.httpError HTTP_409_CONFLICT ALREADY_EXISTS, [], db)
  | none =>
    let hashed := auth_service.get_password_hash body.password
    let body2 : UserModel := { body with password := hashed }
    let res := repository_users.create_user body2 db
    let new_user := res.1
    (Outcome.ok (new_user, SUCCESS_CREATE_USER),
     [{ email := new_user.email, username := new_user.username, base_url := base_url }],
     res.2)

/-- The login route (`src/routes/auth.py`): Unauthorized if the user is
absent, then if not confirmed, then if the password does not verify; on
success issue an access token (7200s) and a refresh token, persist the
refresh token, and return the pair. -/
def login (body : OAuth2PasswordRequestForm) (now : Nat) (db : Db) :
    Outcome TokenModel × Db :=
  match repository_users.get_user_by_email body.username db with
  | none => (Outcome.httpError HTTP_401_UNAUTHORIZED INVALID_EMAIL, db)
  | some user =>
    if !user.confirmed then
      (Outcome.httpError HTTP_401_UNAUTHORIZED EMAIL_NOT_CONFIRMED, db)
    else if !auth_service.verify_password body.password user.password then
      (Outcome.httpError HTTP_401_UNAUTHORIZED INVALID_PASSWORD, db)
    else
      let access_token := auth_service.create_access_token user.email now 7200
      let r := auth_service.create_refresh_token user.email now
      (Outcome.ok { access_token := access_token, refresh_token := r, token_type := "bearer" },
       repository_users.update_token user (some r) db)

/-- The refresh_token route (`src/routes/auth.py`): decode the subject email
from the presented token, look the user up, and compare the stored refresh
token with the presented one; on mismatch clear the stored token and raise
Unauthorized, otherwise issue and persist a new pair.  The source
dereferences the looked-up user without a presence check, so an absent user
is an unhandled `AttributeError`, embedded as `Outcome.pythonError`. -/
def refresh_token (t : SignedToken) (now : Nat) (db : Db) :
    Outcome TokenModel × Db :=
  match auth_service.decode_refresh_token t with
  | Except.error e => (Outcome.httpError e.1 e.2, db)
  | Except.ok email =>
    match repository_users.get_user_by_email email db with
    | none => (Outcome.pythonError "AttributeError", db)
    | some user =>
      if user.refresh_token ≠ some t then
        (Outcome.httpError HTTP_401_UNAUTHORIZED INVALID_TOKEN,
         repository_users.update_token user none db)
      else
        let access_token := auth_service.create_access_token email now auth_service.ACCESS_DEFAULT_TTL
        let r := auth_service.create_refresh_token email now
        (Outcome.ok { access_token := access_token, refresh_token := r, token_type := "bearer" },
         repository_users.update_token user (some r) db)

/-- The confirmed_email route (`src/routes/auth.py`): decode the email from
the confirmation token; BadRequest if no such user; if already confirmed,
return the already-confirmed message without touching the store; otherwise
flip the confirmed flag. -/
def confirmed_email (t : SignedToken) (db : Db) : Outcome String × Db :=
  match auth_service.get_email_from_token t with
  | Except.error e => (Outcome.httpError e.1 e.2, db)
  | Except.ok email =>
    match repository_users.get_user_by_email email db with
    | none => (Outcome.httpError HTTP_400_BAD_REQUEST VERIFICATION_ERROR, db)
    | some user =>
      if user.confirmed then (Outcome.ok EMAIL_ALREADY_CONFIRMED, db)
      else (Outcome.ok EMAIL_CONFIRMED, repository_users.confirmed_email email db)

/-- A `users` table row as it exists before migration 9591ecaee4f4: no
confirmed column.  (The pre-migration model itself is not in the sources;
the row shape is taken from the spec data model minus the added column.) -/
structure UserRowV1 where
  email : String
  username : String
  password : String
  refresh_token : Option String
deriving DecidableEq, Repr

/-- A `users` table row after migration 9591ecaee4f4: the added `confirmed`
column is a nullable Boolean, so its value is an `Option Bool`. -/
structure UserRowV2 where
  email : String
  username : String
  password : String
  refresh_token : Option String
  confirmed : Option Bool
deriving DecidableEq, Repr

/-- The `upgrade` of migration 9591ecaee4f4
(`migrations/versions/9591ecaee4f4_.py`): `op.add_column('users',
sa.Column('confirmed', sa.Boolean(), nullable=True))` — the column is added
nullable with no server default, so every existing row gets NULL. -/
def upgrade (t : List UserRowV1) : List UserRowV2 :=
  t.map (fun r =>
    { email := r.email, username := r.username, password := r.password,
      refresh_token := r.refresh_token, confirmed := none })

example :
    repository_users.get_user_by_email "a@x.com"
      [{ email := "a@x.com", username := "a", password := "h",
         confirmed := false, refresh_token := none }] =
    some { email := "a@x.com", username := "a", password := "h",
           confirmed := false, refresh_token := none } := by decide

/-! Helper lemmas about the credential store. -/

theorem get_user_by_email_email {e : String} {db : Db} {u : User}
    (h : repository_users.get_user_by_email e db = some u) : u.email = e := by
  unfold repository_users.get_user_by_email at h
  have h2 := List.find?_some h
  simpa using h2

theorem find?_map_email_preserving (f : User → User) (hf : ∀ u, (f u).email = u.email)
    (e : String) (db : List User) :
    (db.map f).find? (fun u => u.email == e) = (db.find? (fun u => u.email == e)).map f := by
  rw [List.find?_map]
  have hp : ((fun u : User => u.email == e) ∘ f) = (fun u : User => u.email == e) := by
    funext u
    simp [Function.comp, hf]
  rw [hp]

theorem get_user_by_email_update_token (e : String) (user : User)
    (tok : Option SignedToken) (db : Db) :
    repository_users.get_user_by_email e (repository_users.update_token user tok db) =
      (repository_users.get_user_by_email e db).map
        (fun u => if u.email == user.email then { u with refresh_token := tok } else u) := by
  unfold repository_users.get_user_by_email repository_users.update_token
  apply find?_map_email_preserving
  intro u
  by_cases h : u.email == user.email <;> simp [h]

theorem get_user_by_email_confirmed_email (e email : String) (db : Db) :
    repository_users.get_user_by_email e (repository_users.confirmed_email email db) =
      (repository_users.get_user_by_email e db).map
        (fun u => if u.email == email then { u with confirmed := true } else u) := by
  unfold repository_users.get_user_by_email repository_users.confirmed_email
  apply find?_map_email_preserving
  intro u
  by_cases h : u.email == email <;> simp [h]

theorem get_user_by_email_append_of_some {e : String} {db : Db} {u : User}
    (h : repository_users.get_user_by_email e db = some u) (l : Db) :
    repository_users.get_user_by_email e (db ++ l) = some u := by
  unfold repository_users.get_user_by_email at h ⊢
  rw [List.find?_append, h]
  rfl

theorem get_user_by_email_append_of_none {e : String} {db : Db}
    (h : repository_users.get_user_by_email e db = none) (l : Db) :
    repository_users.get_user_by_email e (db ++ l) = repository_users.get_user_by_email e l := by
  unfold repository_users.get_user_by_email at h ⊢
  rw [List.find?_append, h]
  rfl

/-! Concrete fixtures used by witness theorems. -/

/-- A confirmed user whose stored hash is the hash of "pw". -/
def uA : User :=
  { email := "a@x.com", username := "a",
    password := auth_service.get_password_hash "pw",
    confirmed := true, refresh_token := none }

/-- A registered but unconfirmed user whose stored hash is the hash of "pw". -/
def uB : User :=
  { email := "b@x.com", username := "b",
    password := auth_service.get_password_hash "pw",
    confirmed := false, refresh_token := none }

/-- A signup request body for uA. -/
def bodyA : UserModel := { username := "a", email := "a@x.com", password := "pw" }

/-- Claim C2: login fails with Unauthorized when the user is absent, when the
user exists but is not confirmed (with no hypothesis at all on the supplied
password, so in particular even a correct password fails with the
not-confirmed reason), and when the user is confirmed but the password does
not verify; the distinct detail messages witness which check fired, so the
three checks happen in that order. -/
theorem claim_C2 :
    (∀ body now db,
        repository_users.get_user_by_email body.username db = none →
        login body now db = (Outcome.httpError HTTP_401_UNAUTHORIZED INVALID_EMAIL, db)) ∧
    (∀ body now db user,
        repository_users.get_user_by_email body.username db = some user →
        user.confirmed = false →
        login body now db = (Outcome.httpError HTTP_401_UNAUTHORIZED EMAIL_NOT_CONFIRMED, db)) ∧
    (∀ body now db user,
        repository_users.get_user_by_email body.username db = some user →
        user.confirmed = true →
        auth_service.verify_password body.password user.password = false →
        login body now db = (Outcome.httpError HTTP_401_UNAUTHORIZED INVALID_PASSWORD, db)) := by
  refine ⟨?_, ?_, ?_⟩
  · intro body now db h
    simp [login, h]
  · intro body now db user h hc
    simp [login, h, hc]
  · intro body now db user h hc hv
    simp [login, h, hc, hv]

/-- Witness for C2 at concrete inputs; the second conjunct presents the
CORRECT password for the unconfirmed user uB and still gets the
not-confirmed rejection. -/
theorem claim_C2_witness :
    login { username := "missing@x.com", password := "pw" } 0 [] =
      (Outcome.httpError HTTP_401_UNAUTHORIZED INVALID_EMAIL, []) ∧
    login { username := "b@x.com", password := "pw" } 0 [uB] =
      (Outcome.httpError HTTP_401_UNAUTHORIZED EMAIL_NOT_CONFIRMED, [uB]) ∧
    login { username := "a@x.com", password := "wrong" } 0 [uA] =
      (Outcome.httpError HTTP_401_UNAUTHORIZED INVALID_PASSWORD, [uA]) :=
  ⟨claim_C2.1 { username := "missing@x.com", password := "pw" } 0 [] (by decide),
   claim_C2.2.1 { username := "b@x.com", password := "pw" } 0 [uB] uB (by decide) (by decide),
   claim_C2.2.2 { username := "a@x.com", password := "wrong" } 0 [uA] uA
     (by decide) (by decide) (by decide)⟩

/-- Claim C3: signup with an already-registered email fails with Conflict,
leaves the store unchanged and schedules no email task; consequently a
second signup with the same email after a successful first one always
yields Conflict and leaves the post-first-signup store unchanged. -/
theorem claim_C3 :
    (∀ body url db user,
        repository_users.get_user_by_email body.email db = some user →
        signup body url db = (Outcome.httpError HTTP_409_CONFLICT ALREADY_EXISTS, [], db)) ∧
    (∀ body url db body2 url2,
        repository_users.get_user_by_email body.email db = none →
        body2.email = body.email →
        signup body2 url2 (signup body url db).2.2 =
          (Outcome.httpError HTTP_409_CONFLICT ALREADY_EXISTS, [],
           (signup body url db).2.2)) := by
  constructor
  · intro body url db user h
    simp [signup, h]
  · intro body url db body2 url2 h he
    have h22 : (signup body url db).2.2 =
        db ++ [{ email := body.email, username := body.username,
                 password := auth_service.get_password_hash body.password,
                 confirmed := false, refresh_token := none }] := by
      simp [signup, h, repository_users.create_user]
    have hlook : repository_users.get_user_by_email body2.email ((signup body url db).2.2) =
        some { email := body.email, username := body.username,
               password := auth_service.get_password_hash body.password,
               confirmed := false, refresh_token := none } := by
      rw [h22, he, get_user_by_email_append_of_none h]
      simp [repository_users.get_user_by_email]
    generalize hdb2 : (signup body url db).2.2 = db2 at hlook ⊢
    simp [signup, hlook]

/-- Witness for C3: a signup for an email already in the store conflicts,
and signing bodyA up twice starting from the empty store conflicts on the
second attempt. -/
theorem claim_C3_witness :
    signup bodyA "http://h/" [uA] =
      (Outcome.httpError HTTP_409_CONFLICT ALREADY_EXISTS, [], [uA]) ∧
    signup bodyA "http://h/" (signup bodyA "http://h/" []).2.2 =
      (Outcome.httpError HTTP_409_CONFLICT ALREADY_EXISTS, [],
       (signup bodyA "http://h/" []).2.2) :=
  ⟨claim_C3.1 bodyA "http://h/" [uA] uA (by decide),
   claim_C3.2 bodyA "http://h/" [] bodyA "http://h/" (by decide) rfl⟩

/-- Claim C10: login is atomic on failure: whenever login raises an HTTP
error (any status, any detail), the store it returns is exactly the store
it was given. -/
theorem claim_C10 (body : OAuth2PasswordRequestForm) (now : Nat) (db : Db)
    (code : Nat) (detail : String)
    (h : (login body now db).1 = Outcome.httpError code detail) :
    (login body now db).2 = db := by
  unfold login at h ⊢
  cases hl : repository_users.get_user_by_email body.username db with
  | none => simp [hl]
  | some user =>
    simp only [hl] at h ⊢
    by_cases hc : user.confirmed
    · simp only [hc] at h ⊢
      by_cases hv : auth_service.verify_password body.password user.password
      · simp [hv] at h
      · simp [hv]
    · simp [hc]

/-- Witness for C10: a failing login against the empty store returns the
empty store unchanged. -/
theorem claim_C10_witness :
    (login { username := "nobody@x.com", password := "p" } 0 []).2 = [] :=
  claim_C10 { username := "nobody@x.com", password := "p" } 0 []
    HTTP_401_UNAUTHORIZED INVALID_EMAIL (by decide)

/-- An email-confirmation token for uA. -/
def tConfA : SignedToken := { sub := "a@x.com", kind := TokenKind.emailConf, exp := 0 }

/-- A refresh token for a subject with no user record. -/
def tGhost : SignedToken := { sub := "ghost@x.com", kind := TokenKind.refresh, exp := 99 }

/-- An old refresh token for uA, different from the stored one. -/
def tOld : SignedToken := { sub := "a@x.com", kind := TokenKind.refresh, exp := 100 }

/-- The refresh token currently stored for uA in uA_stored. -/
def tStored : SignedToken := { sub := "a@x.com", kind := TokenKind.refresh, exp := 604800 }

/-- uA with tStored persisted as its current refresh token. -/
def uA_stored : User := { uA with refresh_token := some tStored }

/-- Claim C5: confirming an already-confirmed user via a confirmation token
for that user returns the already-confirmed message and returns the store
unchanged, so a second confirmation of the same email is a no-op. -/
theorem claim_C5 (t : SignedToken) (db : Db) (user : User)
    (hk : t.kind = TokenKind.emailConf)
    (hl : repository_users.get_user_by_email t.sub db = some user)
    (hc : user.confirmed = true) :
    confirmed_email t db = (Outcome.ok EMAIL_ALREADY_CONFIRMED, db) := by
  simp [confirmed_email, auth_service.get_email_from_token, hk, hl, hc]

/-- Witness for C5: confirming the already-confirmed uA leaves [uA]
unchanged and reports already-confirmed. -/
theorem claim_C5_witness :
    confirmed_email tConfA [uA] = (Outcome.ok EMAIL_ALREADY_CONFIRMED, [uA]) :=
  claim_C5 tConfA [uA] uA rfl (by decide) (by decide)

/-- Claim C6: signup on a fresh email stores the hash of the supplied
password (and the hash is never the plaintext), creates the user with
confirmed false and no refresh token, schedules exactly one confirmation
email task, returns the created user, and the route status code is 201. -/
theorem claim_C6 (body : UserModel) (url : String) (db : Db)
    (h : repository_users.get_user_by_email body.email db = none) :
    (signup body url db =
      (Outcome.ok ({ email := body.email, username := body.username,
                     password := auth_service.get_password_hash body.password,
                     confirmed := false, refresh_token := none }, SUCCESS_CREATE_USER),
       [{ email := body.email, username := body.username, base_url := url }],
       db ++ [{ email := body.email, username := body.username,
                password := auth_service.get_password_hash body.password,
                confirmed := false, refresh_token := none }])) ∧
    auth_service.get_password_hash body.password ≠ body.password ∧
    signup_status_code = 201 := by
  refine ⟨?_, ?_, rfl⟩
  · simp [signup, h, repository_users.create_user]
  · intro heq
    have hlen := congrArg String.length heq
    rw [auth_service.get_password_hash, String.length_append] at hlen
    have h4 : "$2b$".length = 4 := rfl
    omega

/-- Witness for C6: signing bodyA up against the empty store creates
exactly the hashed record and schedules one email task. -/
theorem claim_C6_witness :
    signup bodyA "http://h/" [] =
      (Outcome.ok ({ email := "a@x.com", username := "a",
                     password := auth_service.get_password_hash "pw",
                     confirmed := false, refresh_token := none }, SUCCESS_CREATE_USER),
       [{ email := "a@x.com", username := "a", base_url := "http://h/" }],
       [{ email := "a@x.com", username := "a",
          password := auth_service.get_password_hash "pw",
          confirmed := false, refresh_token := none }]) :=
  (claim_C6 bodyA "http://h/" [] (by decide)).1

/-- Claim C9: for a validly-signed refresh token whose subject has no user
record, the refresh route dereferences the absent lookup result and raises
an unhandled AttributeError instead of any HTTP error response: it never
reaches the Unauthorized response. -/
theorem claim_C9 (t : SignedToken) (now : Nat) (db : Db)
    (hk : t.kind = TokenKind.refresh)
    (hl : repository_users.get_user_by_email t.sub db = none) :
    refresh_token t now db = (Outcome.pythonError "AttributeError", db) ∧
    ∀ code detail, (refresh_token t now db).1 ≠ Outcome.httpError code detail := by
  have h1 : refresh_token t now db = (Outcome.pythonError "AttributeError", db) := by
    simp [refresh_token, auth_service.decode_refresh_token, hk, hl]
  refine ⟨h1, ?_⟩
  intro code detail
  rw [h1]
  simp

/-- Witness for C9: a refresh token for an unregistered subject against the
empty store ends in the unhandled-error outcome. -/
theorem claim_C9_witness :
    refresh_token tGhost 0 [] = (Outcome.pythonError "AttributeError", []) :=
  (claim_C9 tGhost 0 [] rfl (by decide)).1

/-- Claim C4: when the presented refresh token decodes to a user whose
stored refresh token differs from it, refresh fails with Unauthorized and
deliberately clears the stored token: the post-state is the store with that
user record rewritten to a null refresh token, and looking the user up
afterwards finds a record whose refresh token is none. -/
theorem claim_C4 (t : SignedToken) (now : Nat) (db : Db) (user : User)
    (hk : t.kind = TokenKind.refresh)
    (hl : repository_users.get_user_by_email t.sub db = some user)
    (hne : user.refresh_token ≠ some t) :
    refresh_token t now db =
      (Outcome.httpError HTTP_401_UNAUTHORIZED INVALID_TOKEN,
       repository_users.update_token user none db) ∧
    ∀ u2, repository_users.get_user_by_email t.sub (refresh_token t now db).2 = some u2 →
      u2.refresh_token = none := by
  have h1 : refresh_token t now db =
      (Outcome.httpError HTTP_401_UNAUTHORIZED INVALID_TOKEN,
       repository_users.update_token user none db) := by
    simp [refresh_token, auth_service.decode_refresh_token, hk, hl, hne]
  refine ⟨h1, ?_⟩
  intro u2 h2
  rw [h1] at h2
  rw [get_user_by_email_update_token, hl] at h2
  simp at h2
  rw [← h2]
/-- Witness for C4: presenting the outdated tOld while tStored is persisted
for uA rejects the call and rewrites the store with a cleared token. -/
theorem claim_C4_witness :
    refresh_token tOld 0 [uA_stored] =
      (Outcome.httpError HTTP_401_UNAUTHORIZED INVALID_TOKEN,
       repository_users.update_token uA_stored none [uA_stored]) :=
  (claim_C4 tOld 0 [uA_stored] uA_stored rfl (by decide) (by decide)).1

/-! Post-state shape lemmas for the four routes. -/

theorem signup_snd_cases (body : UserModel) (url : String) (db : Db) :
    (signup body url db).2.2 = db ∨
    ∃ nu : User, (signup body url db).2.2 = db ++ [nu] := by
  unfold signup
  cases hl : repository_users.get_user_by_email body.email db with
  | some u => left; rfl
  | none => right; exact ⟨_, rfl⟩

theorem login_snd_cases (body : OAuth2PasswordRequestForm) (now : Nat) (db : Db) :
    (login body now db).2 = db ∨
    ∃ user tok, (login body now db).2 = repository_users.update_token user tok db := by
  unfold login
  cases hl : repository_users.get_user_by_email body.username db with
  | none => left; rfl
  | some user =>
    by_cases hc : user.confirmed
    · by_cases hv : auth_service.verify_password body.password user.password
      · right
        refine ⟨user, some (auth_service.create_refresh_token user.email now), ?_⟩
        simp [hc, hv]
      · left; simp [hc, hv]
    · left; simp [hc]

theorem refresh_snd_cases (t : SignedToken) (now : Nat) (db : Db) :
    (refresh_token t now db).2 = db ∨
    ∃ user tok, (refresh_token t now db).2 = repository_users.update_token user tok db := by
  unfold refresh_token
  cases hd : auth_service.decode_refresh_token t with
  | error e => left; rfl
  | ok email =>
    cases hl : repository_users.get_user_by_email email db with
    | none => left; simp [hl]
    | some user =>
      by_cases hne : user.refresh_token ≠ some t
      · right; exact ⟨user, none, by simp [hl, hne]⟩
      · right
        have heq : user.refresh_token = some t := not_not.mp hne
        exact ⟨user, some (auth_service.create_refresh_token email now), by simp [hl, heq]⟩

theorem confirmed_email_snd_cases (t : SignedToken) (db : Db) :
    (confirmed_email t db).2 = db ∨
    ∃ email, (confirmed_email t db).2 = repository_users.confirmed_email email db := by
  unfold confirmed_email
  cases hd : auth_service.get_email_from_token t with
  | error e => left; rfl
  | ok email =>
    cases hl : repository_users.get_user_by_email email db with
    | none => left; simp [hl]
    | some user =>
      by_cases hc : user.confirmed
      · left; simp [hl, hc]
      · right; exact ⟨email, by simp [hl, hc]⟩

theorem confirmed_update_token (e : String) (user : User) (tok : Option SignedToken)
    (db : Db) (u u2 : User)
    (hu : repository_users.get_user_by_email e db = some u)
    (h2 : repository_users.get_user_by_email e (repository_users.update_token user tok db) =
      some u2) :
    u2.confirmed = u.confirmed := by
  rw [get_user_by_email_update_token, hu] at h2
  simp at h2
  split at h2 <;> rw [← h2]

theorem confirmed_confirmed_email (e email : String) (db : Db) (u u2 : User)
    (hu : repository_users.get_user_by_email e db = some u)
    (h2 : repository_users.get_user_by_email e (repository_users.confirmed_email email db) =
      some u2) :
    (u.confirmed = true → u2.confirmed = true) ∧
    (u2.confirmed = u.confirmed ∨ (u.confirmed = false ∧ u2.confirmed = true)) := by
  rw [get_user_by_email_confirmed_email, hu] at h2
  simp at h2
  split at h2
  · rw [← h2]
    constructor
    · intro _
      rfl
    · cases hc : u.confirmed
      · right
        exact ⟨rfl, rfl⟩
      · left
        rfl
  · rw [← h2]
    exact ⟨fun h => h, Or.inl rfl⟩

/-- Claim C7: the confirmed flag is monotone: signup, login and refresh
never change any stored user record's confirmed flag; confirmEmail is the
only operation that changes it, and only from false to true. -/
theorem claim_C7 :
    (∀ body url db e u u2,
        repository_users.get_user_by_email e db = some u →
        repository_users.get_user_by_email e (signup body url db).2.2 = some u2 →
        u2.confirmed = u.confirmed) ∧
    (∀ body now db e u u2,
        repository_users.get_user_by_email e db = some u →
        repository_users.get_user_by_email e (login body now db).2 = some u2 →
        u2.confirmed = u.confirmed) ∧
    (∀ t now db e u u2,
        repository_users.get_user_by_email e db = some u →
        repository_users.get_user_by_email e (refresh_token t now db).2 = some u2 →
        u2.confirmed = u.confirmed) ∧
    (∀ t db e u u2,
        repository_users.get_user_by_email e db = some u →
        repository_users.get_user_by_email e (confirmed_email t db).2 = some u2 →
        (u.confirmed = true → u2.confirmed = true) ∧
        (u2.confirmed = u.confirmed ∨ (u.confirmed = false ∧ u2.confirmed = true))) := by
  refine ⟨?_, ?_, ?_, ?_⟩
  · intro body url db e u u2 hu h2
    rcases signup_snd_cases body url db with hs | ⟨nu, hs⟩
    · rw [hs, hu] at h2
      rw [← Option.some.inj h2]
    · rw [hs, get_user_by_email_append_of_some hu] at h2
      rw [← Option.some.inj h2]
  · intro body now db e u u2 hu h2
    rcases login_snd_cases body now db with hs | ⟨user, tok, hs⟩
    · rw [hs, hu] at h2
      rw [← Option.some.inj h2]
    · rw [hs] at h2
      exact confirmed_update_token e user tok db u u2 hu h2
  · intro t now db e u u2 hu h2
    rcases refresh_snd_cases t now db with hs | ⟨user, tok, hs⟩
    · rw [hs, hu] at h2
      rw [← Option.some.inj h2]
    · rw [hs] at h2
      exact confirmed_update_token e user tok db u u2 hu h2
  · intro t db e u u2 hu h2
    rcases confirmed_email_snd_cases t db with hs | ⟨email, hs⟩
    · rw [hs, hu] at h2
      rw [← Option.some.inj h2]
      exact ⟨fun h => h, Or.inl rfl⟩
    · rw [hs] at h2
      exact confirmed_confirmed_email e email db u u2 hu h2

/-- An email-confirmation token for uB. -/
def tConfB : SignedToken := { sub := "b@x.com", kind := TokenKind.emailConf, exp := 0 }

/-- Witness for C7: a successful login of the confirmed uA leaves its
confirmed flag untouched, and confirming uB flips a false flag to true. -/
theorem claim_C7_witness :
    uA_stored.confirmed = uA.confirmed ∧
    (({ uB with confirmed := true } : User).confirmed = uB.confirmed ∨
     (uB.confirmed = false ∧ ({ uB with confirmed := true } : User).confirmed = true)) :=
  ⟨claim_C7.2.1 { username := "a@x.com", password := "pw" } 0 [uA] "a@x.com" uA uA_stored
     (by decide) (by decide),
   (claim_C7.2.2.2 tConfB [uB] "b@x.com" uB { uB with confirmed := true }
     (by decide) (by decide)).2⟩

/-! Success-shape inversion lemmas for login and refresh. -/

theorem login_ok_shape (body : OAuth2PasswordRequestForm) (now : Nat) (db : Db)
    (pair : TokenModel) (db2 : Db)
    (h : login body now db = (Outcome.ok pair, db2)) :
    ∃ user, repository_users.get_user_by_email body.username db = some user ∧
      pair.refresh_token = auth_service.create_refresh_token user.email now ∧
      db2 = repository_users.update_token user (some pair.refresh_token) db := by
  unfold login at h
  cases hl : repository_users.get_user_by_email body.username db with
  | none =>
    rw [hl] at h
    simp at h
  | some user =>
    rw [hl] at h
    by_cases hc : user.confirmed
    · by_cases hv : auth_service.verify_password body.password user.password
      · simp only [hc, hv, Bool.not_true, Bool.false_eq_true, if_false] at h
        rw [Prod.mk.injEq] at h
        obtain ⟨h1, h2⟩ := h
        have h1b := Outcome.ok.inj h1
        refine ⟨user, rfl, ?_, ?_⟩
        · rw [← h1b]
        · rw [← h2, ← h1b]
      · simp [hc, hv] at h
    · simp [hc] at h

theorem refresh_ok_shape (t0 : SignedToken) (now : Nat) (db : Db)
    (pair : TokenModel) (db2 : Db)
    (h : refresh_token t0 now db = (Outcome.ok pair, db2)) :
    ∃ user, repository_users.get_user_by_email t0.sub db = some user ∧
      pair.refresh_token = auth_service.create_refresh_token t0.sub now ∧
      db2 = repository_users.update_token user (some pair.refresh_token) db := by
  by_cases hk : t0.kind = TokenKind.refresh
  · cases hl : repository_users.get_user_by_email t0.sub db with
    | none =>
      have hcomp : refresh_token t0 now db = (Outcome.pythonError "AttributeError", db) := by
        simp [refresh_token, auth_service.decode_refresh_token, hk, hl]
      rw [hcomp] at h
      simp at h
    | some user =>
      by_cases hne : user.refresh_token ≠ some t0
      · have hcomp : refresh_token t0 now db =
            (Outcome.httpError HTTP_401_UNAUTHORIZED INVALID_TOKEN,
             repository_users.update_token user none db) := by
          simp [refresh_token, auth_service.decode_refresh_token, hk, hl, hne]
        rw [hcomp] at h
        simp at h
      · have heq : user.refresh_token = some t0 := not_not.mp hne
        have hcomp : refresh_token t0 now db =
            (Outcome.ok
              { access_token :=
                  auth_service.create_access_token t0.sub now auth_service.ACCESS_DEFAULT_TTL,
                refresh_token := auth_service.create_refresh_token t0.sub now,
                token_type := "bearer" },
             repository_users.update_token user
               (some (auth_service.create_refresh_token t0.sub now)) db) := by
          simp [refresh_token, auth_service.decode_refresh_token, hk, hl, heq]
        rw [hcomp] at h
        rw [Prod.mk.injEq] at h
        obtain ⟨h1, h2⟩ := h
        have h1b := Outcome.ok.inj h1
        refine ⟨user, rfl, ?_, ?_⟩
        · rw [← h1b]
        · rw [← h2, ← h1b]
  · have hcomp : refresh_token t0 now db =
        (Outcome.httpError HTTP_401_UNAUTHORIZED INVALID_TOKEN, db) := by
      simp [refresh_token, auth_service.decode_refresh_token, hk]
    rw [hcomp] at h
    simp at h

/-- After the stored refresh token of a user is overwritten with rNew, any
refresh-kind token for that user other than rNew is rejected. -/
theorem refresh_rejects_stale (db : Db) (user : User) (rNew t : SignedToken) (now2 : Nat)
    (hl : repository_users.get_user_by_email user.email db = some user)
    (hk : t.kind = TokenKind.refresh) (hsub : t.sub = user.email) (hne : t ≠ rNew) :
    (refresh_token t now2 (repository_users.update_token user (some rNew) db)).1 =
      Outcome.httpError HTTP_401_UNAUTHORIZED INVALID_TOKEN := by
  have hlook : repository_users.get_user_by_email t.sub
      (repository_users.update_token user (some rNew) db) =
      some { user with refresh_token := some rNew } := by
    rw [hsub, get_user_by_email_update_token, hl]
    simp
  have hne2 : ({ user with refresh_token := some rNew } : User).refresh_token ≠ some t := by
    intro h
    exact hne (Option.some.inj h).symm
  simp [refresh_token, auth_service.decode_refresh_token, hk, hlook, hne2]

/-- Claim C1: once a successful login (first conjunct) or a successful
refresh (second conjunct) persists a new refresh token for a user, any
refresh-kind token for that user other than the newly persisted one — in
particular any previously issued one — fails the refresh call with
Unauthorized, because refresh accepts a token only when it equals the one
last stored. -/
theorem claim_C1 :
    (∀ body now db pair db2 t now2,
        login body now db = (Outcome.ok pair, db2) →
        t.kind = TokenKind.refresh → t.sub = body.username →
        t ≠ pair.refresh_token →
        (refresh_token t now2 db2).1 =
          Outcome.httpError HTTP_401_UNAUTHORIZED INVALID_TOKEN) ∧
    (∀ t0 now db pair db2 t now2,
        refresh_token t0 now db = (Outcome.ok pair, db2) →
        t.kind = TokenKind.refresh → t.sub = t0.sub →
        t ≠ pair.refresh_token →
        (refresh_token t now2 db2).1 =
          Outcome.httpError HTTP_401_UNAUTHORIZED INVALID_TOKEN) := by
  constructor
  · intro body now db pair db2 t now2 h hk hsub hne
    obtain ⟨user, hl, hr, hdb2⟩ := login_ok_shape body now db pair db2 h
    have hemail := get_user_by_email_email hl
    rw [hdb2]
    apply refresh_rejects_stale
    · rw [hemail]
      exact hl
    · exact hk
    · rw [hsub]
      exact hemail.symm
    · exact hne
  · intro t0 now db pair db2 t now2 h hk hsub hne
    obtain ⟨user, hl, hr, hdb2⟩ := refresh_ok_shape t0 now db pair db2 h
    have hemail := get_user_by_email_email hl
    rw [hdb2]
    apply refresh_rejects_stale
    · rw [hemail]
      exact hl
    · exact hk
    · rw [hsub]
      exact hemail.symm
    · exact hne

/-- The refresh token a successful refresh at time 3 persists for uA. -/
def tStored2 : SignedToken := { sub := "a@x.com", kind := TokenKind.refresh, exp := 604803 }

/-- uA after a successful refresh at time 3 replaced tStored by tStored2. -/
def uA_stored2 : User := { uA with refresh_token := some tStored2 }

/-- Witness for C1: after uA logs in (persisting tStored), the older tOld is
rejected; after a refresh with tStored (persisting tStored2), the
just-replaced tStored itself is rejected. -/
theorem claim_C1_witness :
    (refresh_token tOld 5 [uA_stored]).1 =
      Outcome.httpError HTTP_401_UNAUTHORIZED INVALID_TOKEN ∧
    (refresh_token tStored 7 [uA_stored2]).1 =
      Outcome.httpError HTTP_401_UNAUTHORIZED INVALID_TOKEN :=
  ⟨claim_C1.1 { username := "a@x.com", password := "pw" } 0 [uA]
     { access_token := { sub := "a@x.com", kind := TokenKind.access, exp := 7200 },
       refresh_token := tStored, token_type := "bearer" }
     [uA_stored] tOld 5 (by decide) (by decide) (by decide) (by decide),
   claim_C1.2 tStored 3 [uA_stored]
     { access_token := { sub := "a@x.com", kind := TokenKind.access, exp := 903 },
       refresh_token := tStored2, token_type := "bearer" }
     [uA_stored2] tStored 7 (by decide) (by decide) (by decide) (by decide)⟩

/-- A users-table row that exists before migration 9591ecaee4f4 runs. -/
def rowOld : UserRowV1 :=
  { email := "old@x.com", username := "old", password := "h", refresh_token := none }

/-- Counterexample for C8: the migration adds the confirmed column with
nullable=True and no server default, so a row that existed before the
migration comes out with confirmed NULL (none), which is not false. -/
theorem claim_C8_counterexample :
    (upgrade [rowOld]).map UserRowV2.confirmed = [none] ∧
    ¬ (upgrade [rowOld]).map UserRowV2.confirmed = [some false] := by decide

/-- Claim C8 (amended): after the migration every pre-existing row has
confirmed NULL (absent), not false; only user records created afterwards by
the signup path get confirmed false from the model default. -/
theorem claim_C8_amended :
    (∀ t r2, r2 ∈ upgrade t → r2.confirmed = none) ∧
    (∀ body db, (repository_users.create_user body db).1.confirmed = false) := by
  constructor
  · intro t r2 h
    unfold upgrade at h
    obtain ⟨r, hr, hmap⟩ := List.mem_map.mp h
    rw [← hmap]
  · intro body db
    rfl

/-- Witness for C8 (amended): the migrated image of rowOld has a NULL
confirmed column. -/
theorem claim_C8_witness :
    UserRowV2.confirmed
      { email := "old@x.com", username := "old", password := "h",
        refresh_token := none, confirmed := none } = none :=
  claim_C8_amended.1 [rowOld]
    { email := "old@x.com", username := "old", password := "h",
      refresh_token := none, confirmed := none } (by decide)
